import Mathlib

/-!
Shallow embedding of the Dagger CI pipeline in
`src/dagger/src/main/__init__.py` (class `BoundaryLayer`).

The source builds lazy Dagger container descriptions: `base()` selects the
`python:{version}` image, mounts the source directory, mounts a
version-keyed pip cache volume and appends two setup execs; `lint()` and
`test()` extend `base()` with further execs; `all()` runs the three stage
coroutines inside an `anyio` task group writing into pre-allocated slots;
`ci()` runs a task group of three per-version pipelines for the hardcoded
versions "3.7", "3.8", "3.9", appending results in completion order.

External-library semantics embedded here, faithful to the libraries used:
* Dagger: `Container.stdout()` resolves every queued exec in order; the
  first exec with a non-zero exit code raises `ExecError`; on success the
  returned string is the stdout of the *last* exec only.  The engine is
  modelled as an oracle assigning each argv a `(stdout, exitCode)` pair.
* anyio: a task group runs its children concurrently; when a child raises,
  the group cancels the children that have not yet completed and re-raises
  the exception; completion order is nondeterministic and is modelled as an
  explicit schedule (a permutation of the child indices).
-/

namespace BoundaryLayerCI

/-- Opaque handle for a mounted host directory (`dagger.Directory`). -/
structure Directory where
  id : Nat
deriving DecidableEq, Repr

/-- One queued operation on a Dagger container description, covering the
operations the source uses. -/
inductive ContainerOp where
  | withDirectory (path : String) (d : Directory)
  | withWorkdir (path : String)
  | withMountedCache (path : String) (volumeName : String)
  | withExec (argv : List String)
deriving DecidableEq, Repr

/-- A lazy Dagger container description: a base image reference plus the
ordered queue of operations applied to it. -/
structure Container where
  imageRef : String
  ops : List ContainerOp
deriving DecidableEq, Repr

/-- `dag.container().from_(image)`. -/
def containerFrom (image : String) : Container := ⟨image, []⟩

def Container.withDirectory (c : Container) (path : String) (d : Directory) : Container :=
  ⟨c.imageRef, c.ops ++ [ContainerOp.withDirectory path d]⟩

def Container.withWorkdir (c : Container) (path : String) : Container :=
  ⟨c.imageRef, c.ops ++ [ContainerOp.withWorkdir path]⟩

def Container.withMountedCache (c : Container) (path : String) (volumeName : String) : Container :=
  ⟨c.imageRef, c.ops ++ [ContainerOp.withMountedCache path volumeName]⟩

def Container.withExec (c : Container) (argv : List String) : Container :=
  ⟨c.imageRef, c.ops ++ [ContainerOp.withExec argv]⟩

/-- The argv lists of the queued execs, in order. -/
def Container.execs (c : Container) : List (List String) :=
  c.ops.filterMap fun op => match op with
    | ContainerOp.withExec argv => some argv
    | _ => none

/-- The cache-volume names mounted on the container, in order. -/
def Container.cacheNames (c : Container) : List String :=
  c.ops.filterMap fun op => match op with
    | ContainerOp.withMountedCache _ n => some n
    | _ => none

/-- The `@object_type` fields of class `BoundaryLayer`: source directory,
environment label (informational) and Python version for the base image. -/
structure BoundaryLayer where
  dir : Directory
  env : String := "local"
  version : String := "3.12"
deriving DecidableEq, Repr

/-- The first setup exec of `base()`: upgrade pip. -/
def setupCmd1 : List String := ["sh", "-c", "python -m pip install --upgrade pip"]

/-- The second setup exec of `base()`: install the tooling. -/
def setupCmd2 : List String := ["sh", "-c", "pip install tox==3.27.1 flake8"]

/-- `BoundaryLayer.base`: `python:{version}` image, source mounted at
`/src`, workdir `/src`, pip cache volume `boundry-layer-python-{version}`
mounted at `/root/.cache/pip`, then the two setup execs. -/
def BoundaryLayer.base (self : BoundaryLayer) : Container :=
  ((((containerFrom ("python:" ++ self.version)).withDirectory "/src" self.dir).withWorkdir
      "/src").withMountedCache "/root/.cache/pip"
      ("boundry-layer-python-" ++ self.version)).withExec setupCmd1 |>.withExec setupCmd2

/-- The strict flake8 pass of `BoundaryLayer.lint` (first `with_exec`). -/
def strictLintCmd : List String :=
  ["sh", "-c",
   "flake8 boundary_layer boundary_layer_default_plugin bin test --count --select=E9,F63,F7,F82 --show-source --statistics"]

/-- The permissive flake8 pass of `BoundaryLayer.lint` (second `with_exec`). -/
def permissiveLintCmd : List String :=
  ["sh", "-c",
   "flake8 boundary_layer boundary_layer_default_plugin bin test --count --exit-zero --max-complexity=10 --max-line-length=127 --statistics"]

/-- `BoundaryLayer.lint`: extends `base()` with the strict and then the
permissive flake8 pass. -/
def BoundaryLayer.lint (self : BoundaryLayer) : Container :=
  (self.base.withExec strictLintCmd).withExec permissiveLintCmd

/-- The single exec of `BoundaryLayer.test`: the f-string
`f"tox --recreate -e py`echo {self.version} | tr -d '.'` test"` passed as
the second element of an `["echo", ...]` argv. -/
def BoundaryLayer.testCmd (self : BoundaryLayer) : List String :=
  ["echo", "tox --recreate -e py`echo " ++ self.version ++ " | tr -d '.'` test"]

/-- `BoundaryLayer.test`: extends `base()` with the `echo` exec above. -/
def BoundaryLayer.test (self : BoundaryLayer) : Container :=
  self.base.withExec self.testCmd

/-! ## Execution-engine semantics (Dagger) -/

/-- Dagger `ExecError`: the failing argv together with its exit code and
captured output. -/
structure ExecError where
  argv : List String
  exitCode : Nat
  output : String
deriving DecidableEq, Repr

/-- The external execution engine, as an oracle mapping an argv to the
`(stdout, exitCode)` pair its execution produces. -/
def Engine : Type := List String → String × Nat

/-- Resolve a queue of execs in order, carrying the stdout of the last
successful command: the first command with non-zero exit code raises
`ExecError`; otherwise the result is the stdout of the last command. -/
def runExecs (engine : Engine) : List (List String) → String → Except ExecError String
  | [], last => Except.ok last
  | cmd :: rest, _ =>
      let r := engine cmd
      if r.2 = 0 then runExecs engine rest r.1
      else Except.error ⟨cmd, r.2, r.1⟩

/-- Dagger `Container.stdout()`: lazily executes the queued commands and
returns the output stream of the last executed command, raising
`ExecError` at the first non-zero exit. -/
def Container.stdout (c : Container) (engine : Engine) : Except ExecError String :=
  runExecs engine c.execs ""

/-! ## Task-group semantics (anyio) and the pipeline entry points

A stage/branch coroutine suspends at its single external-engine call and
resumes delivering either its captured output or an `ExecError`.  A task
group is run against an explicit completion schedule: the list of child
indices in the order their awaits complete.  Children complete in that
order until one delivers an error; at that point the group cancels every
child not yet completed (they never deliver) and re-raises the error. -/

/-- `all()`'s task group: children write into pre-allocated `slots` at
their fan-out index; `done` records the children that completed.  Returns
the filled slots, or the first error in completion order, paired with the
completed children. -/
def runGroupSlots (results : Nat → Except ExecError String) :
    List Nat → List String → List Nat → Except ExecError (List String) × List Nat
  | [], slots, done => (Except.ok slots, done)
  | i :: rest, slots, done =>
      match results i with
      | Except.ok s => runGroupSlots results rest (slots.set i s) (done ++ [i])
      | Except.error e => (Except.error e, done)

/-- `ci()`'s task group: children append to a shared `output` list in
completion order. -/
def runGroupAppend (results : Nat → Except ExecError String) :
    List Nat → List String → List Nat → Except ExecError (List String) × List Nat
  | [], acc, done => (Except.ok acc, done)
  | i :: rest, acc, done =>
      match results i with
      | Except.ok s => runGroupAppend results rest (acc ++ [s]) (done ++ [i])
      | Except.error e => (Except.error e, done)

/-- The three stage coroutines spawned by `all()`, at their fan-out
indices: 0 ↦ version probe (`base()` plus `python --version`), 1 ↦
`lint()`, 2 ↦ `test()`; each awaits its container's `stdout()`. -/
def BoundaryLayer.stageCoros (self : BoundaryLayer) (engine : Engine) :
    Nat → Except ExecError String
  | 0 => (self.base.withExec ["python", "--version"]).stdout engine
  | 1 => self.lint.stdout engine
  | 2 => self.test.stdout engine
  | _ => Except.ok ""

/-- `all()`: runs the three stage coroutines in a task group against the
given completion `schedule` (a permutation of `[0, 1, 2]`), then joins the
pre-allocated slots with a newline.  A stage failure propagates out of the
task group as the raised `ExecError`. -/
def BoundaryLayer.all (self : BoundaryLayer) (engine : Engine) (schedule : List Nat) :
    Except ExecError String :=
  match runGroupSlots (self.stageCoros engine) schedule ["", "", ""] [] with
  | (Except.ok slots, _) => Except.ok (String.intercalate "\n" slots)
  | (Except.error e, _) => Except.error e

/-- The stage coroutines that completed (delivered a value) in a run of
`all()` under the given schedule. -/
def BoundaryLayer.allCompleted (self : BoundaryLayer) (engine : Engine)
    (schedule : List Nat) : List Nat :=
  (runGroupSlots (self.stageCoros engine) schedule ["", "", ""] []).2

/-- The version list hardcoded in `ci()`. -/
def ciVersions : List String := ["3.7", "3.8", "3.9"]

/-- The per-branch configs `ci()` constructs:
`BoundaryLayer(dir=self.dir, env=self.env, version=version)` for each
hardcoded version, in order. -/
def BoundaryLayer.ciBranches (self : BoundaryLayer) : List BoundaryLayer :=
  ciVersions.map fun v => ⟨self.dir, self.env, v⟩

/-- The branch coroutines spawned by `ci()`: branch `i` awaits
`bl.all()` for the freshly constructed config of the `i`-th hardcoded
version, under that branch's own stage-completion schedule. -/
def BoundaryLayer.ciBranchCoro (self : BoundaryLayer) (engine : Engine)
    (stageSchedules : Nat → List Nat) : Nat → Except ExecError String :=
  fun i =>
    match (self.ciBranches).get? i with
    | some bl => bl.all engine (stageSchedules i)
    | none => Except.ok ""

/-- `ci()`: runs the three per-version pipelines in a task group against
the given branch completion schedule, appending branch reports in
completion order and joining them with a newline.  A branch failure
propagates out of the task group as the raised `ExecError`. -/
def BoundaryLayer.ci (self : BoundaryLayer) (engine : Engine)
    (branchSchedule : List Nat) (stageSchedules : Nat → List Nat) :
    Except ExecError String :=
  match runGroupAppend (self.ciBranchCoro engine stageSchedules) branchSchedule [] [] with
  | (Except.ok outs, _) => Except.ok (String.intercalate "\n" outs)
  | (Except.error e, _) => Except.error e

/-- The branch coroutines that completed in a run of `ci()` under the
given schedules. -/
def BoundaryLayer.ciCompleted (self : BoundaryLayer) (engine : Engine)
    (branchSchedule : List Nat) (stageSchedules : Nat → List Nat) : List Nat :=
  (runGroupAppend (self.ciBranchCoro engine stageSchedules) branchSchedule [] []).2

/-- The six possible completion orders of a three-child task group. -/
def schedules3 : List (List Nat) :=
  [[0, 1, 2], [0, 2, 1], [1, 0, 2], [1, 2, 0], [2, 0, 1], [2, 1, 0]]

/-! ## Shell-script tokenisation (for inspecting the setup commands) -/

/-- Split a character list into space-separated tokens, accumulating the
current token in reverse. -/
def wordsAux : List Char → List Char → List String
  | [], [] => []
  | [], acc => [String.mk acc.reverse]
  | c :: cs, acc =>
      if c = ' ' then
        (if acc = [] then wordsAux cs [] else String.mk acc.reverse :: wordsAux cs [])
      else wordsAux cs (c :: acc)

/-- The space-separated tokens of a shell script. -/
def words (s : String) : List String := wordsAux s.data []

/-- A package spec is version-pinned when it carries an `=` (as in
`tox==3.27.1`). -/
def isPinned (s : String) : Bool := s.data.contains '='

/-- A command-line token that is a flag rather than a package spec. -/
def isFlagTok (s : String) : Bool := s.data.headD ' ' = '-'

/-- The package specs of a `pip install` (or `pip install --upgrade`)
shell script: the non-flag tokens after `install`. -/
def pipInstallSpecs (script : String) : List String :=
  (((words script).dropWhile fun t => t ≠ "install").drop 1).filter fun t => !isFlagTok t

/-- The scripts of the container's `sh -c` execs. -/
def Container.shellScripts (c : Container) : List String :=
  c.execs.filterMap fun argv => match argv with
    | ["sh", "-c", s] => some s
    | _ => none

/-- Every package spec installed by the container's shell execs. -/
def Container.installedSpecs (c : Container) : List String :=
  c.shellScripts.flatMap pipInstallSpecs

/-! ## Instrumented construction counts

The Python methods build container descriptions client-side: every
evaluation of `self.base()` constructs a fresh environment description.
These definitions mirror the source's call graph — `lint()` and `test()`
each invoke `self.base()` themselves, and `all()` additionally invokes
`self.base()` directly for the version probe — and count those
constructions. -/

/-- Evaluating `self.base()` constructs one environment description. -/
def BoundaryLayer.baseBuilds (self : BoundaryLayer) : Container × Nat :=
  (self.base, 1)

/-- `lint()` evaluates `self.base()` and queues its two flake8 execs. -/
def BoundaryLayer.lintBuilds (self : BoundaryLayer) : Container × Nat :=
  ((self.baseBuilds.1.withExec strictLintCmd).withExec permissiveLintCmd, self.baseBuilds.2)

/-- `test()` evaluates `self.base()` and queues its `echo` exec. -/
def BoundaryLayer.testBuilds (self : BoundaryLayer) : Container × Nat :=
  (self.baseBuilds.1.withExec self.testCmd, self.baseBuilds.2)

/-- Environment descriptions constructed while `all()` sets up its three
stage coroutines: the direct `self.base()` call for the version probe plus
the `self.base()` calls inside `self.lint()` and `self.test()`. -/
def BoundaryLayer.allEnvBuilds (self : BoundaryLayer) : Nat :=
  self.baseBuilds.2 + self.lintBuilds.2 + self.testBuilds.2

/-! ## Concrete sample inputs -/

/-- A sample source-directory handle. -/
def sampleDir : Directory := ⟨0⟩

/-- A second, distinct source-directory handle. -/
def sampleDir2 : Directory := ⟨1⟩

/-- A sample configuration with the default field values of the class. -/
def bl0 : BoundaryLayer := ⟨sampleDir, "local", "3.12"⟩

/-- A sample configuration whose configured version is `"3.11"`. -/
def bl311 : BoundaryLayer := ⟨sampleDir, "local", "3.11"⟩

/-- An engine on which every command succeeds with output `"out"`. -/
def engOk : Engine := fun _ => ("out", 0)

/-- An engine on which the strict flake8 pass exits 1 with output
`"boom"` and every other command succeeds. -/
def engLintFail : Engine := fun cmd =>
  if cmd = strictLintCmd then ("boom", 1) else ("out", 0)

/-- An engine on which only the `"3.8"` branch's test exec fails. -/
def engV38Fail : Engine := fun cmd =>
  if cmd = (BoundaryLayer.mk sampleDir "local" "3.8").testCmd then ("boom", 1)
  else ("out", 0)

/-- An engine giving the probe, lint and test stages distinguishable
outputs (each stage's stdout is that of its last exec). -/
def engStage : Engine := fun cmd =>
  if cmd = ["python", "--version"] then ("PROBE", 0)
  else if cmd = permissiveLintCmd then ("LINT", 0)
  else if cmd = bl0.testCmd then ("TEST", 0)
  else ("", 0)

/-- An engine on which both flake8 passes succeed with distinct
findings. -/
def engLintOut : Engine := fun cmd =>
  if cmd = strictLintCmd then ("STRICT-FINDINGS", 0)
  else if cmd = permissiveLintCmd then ("permissive-findings", 0)
  else ("", 0)

/-- An engine behaving like a shell on `echo`: the exec prints its
argument and exits 0. -/
def engShell : Engine := fun cmd =>
  match cmd with
  | ["echo", s] => (s, 0)
  | _ => ("", 0)

/-- Appending on the left of a string is injective on the right
argument. -/
theorem string_append_left_cancel {s t u : String} (h : s ++ t = s ++ u) : t = u := by
  cases s with
  | mk a =>
    cases t with
    | mk b =>
      cases u with
      | mk c =>
        have hd : a ++ b = a ++ c := congrArg String.data h
        exact congrArg String.mk (List.append_cancel_left hd)

/-! ## General lemmas about the task-group semantics -/

/-- When every child scheduled before `i` succeeds and child `i` fails,
a slot-writing task group completes exactly that prefix and returns the
failure of `i`. -/
theorem runGroupSlots_error_after (results : Nat → Except ExecError String)
    (i : Nat) (e : ExecError) (hi : results i = Except.error e) :
    ∀ pre : List Nat, (∀ j ∈ pre, ∃ s, results j = Except.ok s) →
      ∀ (rest : List Nat) (slots : List String) (done : List Nat),
        runGroupSlots results (pre ++ i :: rest) slots done = (Except.error e, done ++ pre) := by
  intro pre
  induction pre with
  | nil => intro _ rest slots done; simp [runGroupSlots, hi]
  | cons j tail ih =>
      intro h rest slots done
      obtain ⟨s, hs⟩ := h j (by simp)
      have step := ih (fun k hk => h k (by simp [hk])) rest (slots.set j s) (done ++ [j])
      simp [runGroupSlots, hs, step]

/-- Append-collecting variant of `runGroupSlots_error_after`. -/
theorem runGroupAppend_error_after (results : Nat → Except ExecError String)
    (i : Nat) (e : ExecError) (hi : results i = Except.error e) :
    ∀ pre : List Nat, (∀ j ∈ pre, ∃ s, results j = Except.ok s) →
      ∀ (rest : List Nat) (acc : List String) (done : List Nat),
        runGroupAppend results (pre ++ i :: rest) acc done = (Except.error e, done ++ pre) := by
  intro pre
  induction pre with
  | nil => intro _ rest acc done; simp [runGroupAppend, hi]
  | cons j tail ih =>
      intro h rest acc done
      obtain ⟨s, hs⟩ := h j (by simp)
      have step := ih (fun k hk => h k (by simp [hk])) rest (acc ++ [s]) (done ++ [j])
      simp [runGroupAppend, hs, step]

/-- If a slot-writing task group returns a value, every scheduled child
succeeded. -/
theorem runGroupSlots_ok_stages (results : Nat → Except ExecError String) :
    ∀ (sched : List Nat) (slots : List String) (done : List Nat)
      (out : List String) (dn : List Nat),
      runGroupSlots results sched slots done = (Except.ok out, dn) →
      ∀ i ∈ sched, ∃ s, results i = Except.ok s := by
  intro sched
  induction sched with
  | nil => intro slots done out dn _ i hi; simp at hi
  | cons j tail ih =>
      intro slots done out dn h i hi
      cases hres : results j with
      | error e => rw [runGroupSlots, hres] at h; simp at h
      | ok s =>
          rw [runGroupSlots, hres] at h
          rcases List.mem_cons.mp hi with rfl | hmem
          · exact ⟨s, hres⟩
          · exact ih (slots.set j s) (done ++ [j]) out dn h i hmem

/-- If some scheduled child fails, a slot-writing task group returns an
error. -/
theorem runGroupSlots_error_mem (results : Nat → Except ExecError String)
    (sched : List Nat) (slots : List String) (done : List Nat)
    (i : Nat) (hmem : i ∈ sched) (e : ExecError) (hi : results i = Except.error e) :
    ∃ e' dn, runGroupSlots results sched slots done = (Except.error e', dn) := by
  rcases h : runGroupSlots results sched slots done with ⟨x, dn⟩
  cases x with
  | error e' => exact ⟨e', dn, rfl⟩
  | ok out =>
      obtain ⟨s, hs⟩ := runGroupSlots_ok_stages results sched slots done out dn h i hmem
      rw [hi] at hs
      exact absurd hs (by simp)

/-! ## Claim theorems -/

/-- C1, counterexample.  Failure is NOT isolated across concurrent
branches: with the strict flake8 pass exiting 1 and the lint stage
completing first (schedule `[1, 0, 2]`), the probe and test stages —
already started by `start_soon` and still in flight — are cancelled by the
`anyio` task group and never complete (`allCompleted = []`), and `all()`
re-raises the failure.  Likewise at fleet level: with the `"3.8"`
branch's pipeline failing first (branch schedule `[1, 0, 2]`), the
`"3.7"` and `"3.9"` pipelines are cancelled (`ciCompleted = []`) and
`ci()` re-raises. -/
theorem c1_counterexample :
    (bl0.allCompleted engLintFail [1, 0, 2] = [] ∧
      bl0.all engLintFail [1, 0, 2] = Except.error ⟨strictLintCmd, 1, "boom"⟩) ∧
    (bl0.ciCompleted engV38Fail [1, 0, 2] (fun _ => [0, 1, 2]) = [] ∧
      bl0.ci engV38Fail [1, 0, 2] (fun _ => [0, 1, 2]) =
        Except.error ⟨(BoundaryLayer.mk sampleDir "local" "3.8").testCmd, 1, "boom"⟩) :=
  ⟨⟨rfl, rfl⟩, rfl, rfl⟩

/-- C1, amended.  When a stage coroutine of `all()` fails, the sibling
stages that completed before it are unaffected, but every sibling not yet
completed is cancelled and never completes, and the failure is re-raised
from `all()`; the same holds across versions in `ci()`: a failing
version's pipeline cancels the sibling pipelines not yet completed and
`ci()` re-raises. -/
theorem c1_amended :
    (∀ (bl : BoundaryLayer) (engine : Engine) (pre rest : List Nat) (i : Nat) (e : ExecError),
      (∀ j ∈ pre, ∃ s, bl.stageCoros engine j = Except.ok s) →
      bl.stageCoros engine i = Except.error e →
      bl.allCompleted engine (pre ++ i :: rest) = pre ∧
        bl.all engine (pre ++ i :: rest) = Except.error e) ∧
    (∀ (bl : BoundaryLayer) (engine : Engine) (ss : Nat → List Nat)
      (pre rest : List Nat) (i : Nat) (e : ExecError),
      (∀ j ∈ pre, ∃ s, bl.ciBranchCoro engine ss j = Except.ok s) →
      bl.ciBranchCoro engine ss i = Except.error e →
      bl.ciCompleted engine (pre ++ i :: rest) ss = pre ∧
        bl.ci engine (pre ++ i :: rest) ss = Except.error e) := by
  constructor
  · intro bl engine pre rest i e h hi
    have key := runGroupSlots_error_after (bl.stageCoros engine) i e hi pre h rest
      ["", "", ""] []
    constructor
    · simp [BoundaryLayer.allCompleted, key]
    · simp [BoundaryLayer.all, key]
  · intro bl engine ss pre rest i e h hi
    have key := runGroupAppend_error_after (bl.ciBranchCoro engine ss) i e hi pre h rest [] []
    constructor
    · simp [BoundaryLayer.ciCompleted, key]
    · simp [BoundaryLayer.ci, key]

/-- C1, witness for the amended theorem: under `engLintFail` with schedule
`[0, 1, 2]`, the probe (scheduled before the failing lint stage) completes
and remains the only completed stage, and `all()` re-raises the lint
failure. -/
theorem c1_amended_witness :
    bl0.allCompleted engLintFail [0, 1, 2] = [0] ∧
      bl0.all engLintFail [0, 1, 2] = Except.error ⟨strictLintCmd, 1, "boom"⟩ :=
  c1_amended.1 bl0 engLintFail [0] [2] 1 ⟨strictLintCmd, 1, "boom"⟩
    (by intro j hj; rcases List.mem_singleton.mp hj with rfl; exact ⟨"out", rfl⟩) rfl

/-- C2, counterexample.  Partial results are NOT preserved: under
`engLintFail` with completion order `[0, 1, 2]`, the version probe
completes with output `"out"`, yet after the lint stage fails `all()`
returns no report at all — the `ExecError` is thrown past the pipeline
boundary and the probe's gathered output is discarded. -/
theorem c2_counterexample :
    bl0.stageCoros engLintFail 0 = Except.ok "out" ∧
      bl0.all engLintFail [0, 1, 2] = Except.error ⟨strictLintCmd, 1, "boom"⟩ :=
  ⟨rfl, rfl⟩

/-- C2, amended.  Stage failures are raised past the pipeline boundary
rather than recovered into the report: `all()` returns a report only when
every scheduled stage succeeded, and whenever any scheduled stage fails
`all()` returns an error (no partial report). -/
theorem c2_amended :
    ∀ (bl : BoundaryLayer) (engine : Engine) (schedule : List Nat),
      (∀ r, bl.all engine schedule = Except.ok r →
        ∀ i ∈ schedule, ∃ s, bl.stageCoros engine i = Except.ok s) ∧
      (∀ i ∈ schedule, ∀ e, bl.stageCoros engine i = Except.error e →
        ∃ e', bl.all engine schedule = Except.error e') := by
  intro bl engine schedule
  constructor
  · intro r hr i hi
    rcases h : runGroupSlots (bl.stageCoros engine) schedule ["", "", ""] [] with ⟨x, dn⟩
    cases x with
    | error e => rw [BoundaryLayer.all, h] at hr; simp at hr
    | ok out =>
        exact runGroupSlots_ok_stages (bl.stageCoros engine) schedule ["", "", ""] [] out dn h i hi
  · intro i hi e he
    obtain ⟨e', dn, h⟩ :=
      runGroupSlots_error_mem (bl.stageCoros engine) schedule ["", "", ""] [] i hi e he
    exact ⟨e', by rw [BoundaryLayer.all, h]⟩

/-- C2, witness: applying the amended theorem at `engLintFail`, the
failing strict pass makes `all()` return an error for the concrete
schedule `[0, 1, 2]`. -/
theorem c2_amended_witness :
    ∃ e', bl0.all engLintFail [0, 1, 2] = Except.error e' :=
  (c2_amended bl0 engLintFail [0, 1, 2]).2 1 (by simp) ⟨strictLintCmd, 1, "boom"⟩ rfl

/-- C3, confirmed.  Slot indices are assigned before fan-out (probe ↦ 0,
lint ↦ 1, test ↦ 2) and each coroutine writes into its pre-allocated
slot, so for every completion order of the three stages the report joins
the stage outputs in the fixed order probe, lint, test. -/
theorem c3_canonical_order :
    ∀ (bl : BoundaryLayer) (engine : Engine) (a b c : String) (schedule : List Nat),
      schedule ∈ schedules3 →
      bl.stageCoros engine 0 = Except.ok a →
      bl.stageCoros engine 1 = Except.ok b →
      bl.stageCoros engine 2 = Except.ok c →
      bl.all engine schedule = Except.ok (String.intercalate "\n" [a, b, c]) := by
  intro bl engine a b c schedule hmem h0 h1 h2
  fin_cases hmem <;>
    simp [BoundaryLayer.all, runGroupSlots, h0, h1, h2, List.set]

/-- C3, witness: under `engStage` the test stage completes first
(schedule `[2, 0, 1]`), yet the report is `PROBE`, `LINT`, `TEST` in
canonical slot order. -/
theorem c3_witness :
    bl0.all engStage [2, 0, 1] =
      Except.ok (String.intercalate "\n" ["PROBE", "LINT", "TEST"]) :=
  c3_canonical_order bl0 engStage "PROBE" "LINT" "TEST" [2, 0, 1]
    (by simp [schedules3]) rfl rfl rfl

/-- C4: the code does not run tox.  The only exec `test()` adds on top of
`base()` is `["echo", "tox --recreate -e py`echo 3.12 | tr -d '.'` test"]`
— the program invoked is `echo`, which merely prints the tox invocation;
under an engine with shell `echo` semantics the test stage's entire
output is the literal command text, and no exec of the test container
invokes `tox`. -/
theorem c4_test_only_echoes :
    bl0.test.execs =
      [setupCmd1, setupCmd2,
        ["echo", "tox --recreate -e py`echo 3.12 | tr -d '.'` test"]] ∧
      (bl0.test.execs.getLastD []).head? = some "echo" ∧
      bl0.stageCoros engShell 2 =
        Except.ok "tox --recreate -e py`echo 3.12 | tr -d '.'` test" ∧
      ∀ argv ∈ bl0.test.execs, argv.head? ≠ some "tox" :=
  ⟨rfl, rfl, rfl, by decide⟩

/-- C5, counterexample.  The setup commands do not pin every tool: the
tooling install `pip install tox==3.27.1 flake8` passes the spec
`flake8` with no version pin (and the pip upgrade is likewise
unpinned). -/
theorem c5_counterexample :
    bl0.base.installedSpecs = ["pip", "tox==3.27.1", "flake8"] ∧
      "flake8" ∈ bl0.base.installedSpecs ∧ isPinned "flake8" = false := by
  refine ⟨rfl, ?_, rfl⟩
  rw [show bl0.base.installedSpecs = ["pip", "tox==3.27.1", "flake8"] from rfl]
  simp

/-- C5, amended.  For every version, the setup commands install exactly
the specs `pip` (the package-manager upgrade), `tox==3.27.1` and
`flake8`: tox is pinned to 3.27.1, but flake8 (and the pip upgrade) carry
no version pin. -/
theorem c5_amended :
    ∀ bl : BoundaryLayer,
      bl.base.installedSpecs = ["pip", "tox==3.27.1", "flake8"] ∧
        isPinned "tox==3.27.1" = true ∧
        isPinned "flake8" = false ∧ isPinned "pip" = false :=
  fun _ => ⟨rfl, rfl, rfl, rfl⟩

/-- C6, counterexample.  A single `all()` invocation constructs three
environment descriptions, not one: `all()` evaluates `self.base()`
directly for the probe, and `lint()` and `test()` each evaluate
`self.base()` again. -/
theorem c6_counterexample : bl0.allEnvBuilds = 3 ∧ bl0.allEnvBuilds ≠ 1 :=
  ⟨rfl, by decide⟩

/-- C6, amended.  Each of the three stages constructs its own environment
description by calling `base()` (three constructions per `all()`
invocation), but the three descriptions are identical extensions of
`base()` for the same (directory, version) pair: every stage container
has the same image reference and extends `base()`'s operation queue only
by its own execs, and no stage mutates the shared description. -/
theorem c6_amended :
    ∀ bl : BoundaryLayer,
      bl.allEnvBuilds = 3 ∧
      bl.lint.imageRef = bl.base.imageRef ∧
      bl.test.imageRef = bl.base.imageRef ∧
      bl.lint.ops = bl.base.ops ++
        [ContainerOp.withExec strictLintCmd, ContainerOp.withExec permissiveLintCmd] ∧
      bl.test.ops = bl.base.ops ++ [ContainerOp.withExec bl.testCmd] ∧
      (bl.base.withExec ["python", "--version"]).ops =
        bl.base.ops ++ [ContainerOp.withExec ["python", "--version"]] := by
  intro bl
  refine ⟨rfl, rfl, rfl, ?_, rfl, rfl⟩
  simp [BoundaryLayer.lint, Container.withExec]

/-- C7, counterexample.  The lint stage's captured output is NOT the
concatenation of the two passes: with the strict pass producing
`STRICT-FINDINGS` and the permissive pass producing
`permissive-findings` (both exiting 0), the stage's output is exactly the
permissive pass's output — strictly shorter than the concatenation of
both passes' output, which therefore cannot appear in it. -/
theorem c7_counterexample :
    bl0.lint.stdout engLintOut = Except.ok "permissive-findings" ∧
      ("permissive-findings" : String).length <
        ("STRICT-FINDINGS" ++ "permissive-findings" : String).length :=
  ⟨rfl, by decide⟩

/-- C7, amended.  The lint stage queues two flake8 passes after the setup
execs — a strict pass selecting exactly the classes E9, F63, F7, F82
(without `--exit-zero`) and a permissive pass carrying `--exit-zero` —
and, when the setup execs succeed, a non-zero exit of the strict pass
fails the stage with that pass's detail, while if every pass exits zero
the stage's captured output is the permissive (last) pass's output alone,
not the concatenation of both passes' output. -/
theorem c7_amended :
    ∀ (bl : BoundaryLayer) (engine : Engine),
      bl.lint.execs = [setupCmd1, setupCmd2, strictLintCmd, permissiveLintCmd] ∧
      ("--select=E9,F63,F7,F82" ∈ words (strictLintCmd.getLastD "") ∧
        "--exit-zero" ∉ words (strictLintCmd.getLastD "")) ∧
      "--exit-zero" ∈ words (permissiveLintCmd.getLastD "") ∧
      ((engine setupCmd1).2 = 0 → (engine setupCmd2).2 = 0 →
        (((engine strictLintCmd).2 ≠ 0 →
          bl.lint.stdout engine =
            Except.error
              ⟨strictLintCmd, (engine strictLintCmd).2, (engine strictLintCmd).1⟩) ∧
          ((engine strictLintCmd).2 = 0 →
            bl.lint.stdout engine =
              if (engine permissiveLintCmd).2 = 0 then
                Except.ok (engine permissiveLintCmd).1
              else
                Except.error ⟨permissiveLintCmd, (engine permissiveLintCmd).2,
                  (engine permissiveLintCmd).1⟩))) := by
  intro bl engine
  refine ⟨rfl, ⟨by decide, by decide⟩, by decide, ?_⟩
  intro h1 h2
  have hex : bl.lint.execs = [setupCmd1, setupCmd2, strictLintCmd, permissiveLintCmd] := rfl
  constructor
  · intro h3
    simp [Container.stdout, hex, runExecs, h1, h2, h3]
  · intro h3
    simp [Container.stdout, hex, runExecs, h1, h2, h3]

/-- C7, witness: under `engLintOut` (setup and both passes exit 0) the
lint stage's captured output is the permissive pass's output. -/
theorem c7_amended_witness :
    bl0.lint.stdout engLintOut = Except.ok (engLintOut permissiveLintCmd).1 := by
  have h := ((c7_amended bl0 engLintOut).2.2.2 rfl rfl).2 rfl
  simpa using h

/-- C8, confirmed.  `base()` is deterministic in the version: two
configurations with the same version yield the same base image reference
(`python:{version}`) and the same cache-volume name
(`boundry-layer-python-{version}`, a pure function of the version), and
two distinct versions always get distinct cache-volume names. -/
theorem c8_build_deterministic_and_injective :
    ∀ b1 b2 : BoundaryLayer,
      (b1.version = b2.version →
        b1.base.imageRef = b2.base.imageRef ∧
          b1.base.cacheNames = b2.base.cacheNames) ∧
      (b1.version ≠ b2.version → b1.base.cacheNames ≠ b2.base.cacheNames) := by
  intro b1 b2
  constructor
  · intro h
    constructor
    · show "python:" ++ b1.version = "python:" ++ b2.version
      rw [h]
    · show ["boundry-layer-python-" ++ b1.version] =
        ["boundry-layer-python-" ++ b2.version]
      rw [h]
  · intro h hc
    apply h
    have hc' : ["boundry-layer-python-" ++ b1.version] =
        ["boundry-layer-python-" ++ b2.version] := hc
    exact string_append_left_cancel (List.cons.inj hc').1

/-- C8, witness: same version with different directory and environment
label gives the same image reference, and versions `3.7` vs `3.8` give
different cache-volume names. -/
theorem c8_witness :
    (BoundaryLayer.mk sampleDir "ci" "3.7").base.imageRef =
        (BoundaryLayer.mk sampleDir2 "local" "3.7").base.imageRef ∧
      (BoundaryLayer.mk sampleDir "local" "3.7").base.cacheNames ≠
        (BoundaryLayer.mk sampleDir "local" "3.8").base.cacheNames :=
  ⟨((c8_build_deterministic_and_injective _ _).1 rfl).1,
    (c8_build_deterministic_and_injective _ _).2 (by decide)⟩

/-- C9, counterexample.  The fan-out does not follow any configured
version list: with the configuration's version field set to `"3.11"`,
`ci()` still launches branches for exactly `"3.7"`, `"3.8"`, `"3.9"` —
the configured version gets no branch — and the hardcoded branch list is
never empty, so the empty-fan-out scenario cannot arise. -/
theorem c9_counterexample :
    bl311.version = "3.11" ∧
      bl311.ciBranches.map BoundaryLayer.version = ["3.7", "3.8", "3.9"] ∧
      bl311.version ∉ bl311.ciBranches.map BoundaryLayer.version ∧
      bl311.ciBranches ≠ [] := by
  decide

/-- C9, amended.  `ci()` fans out exactly one per-version pipeline per
entry of the hardcoded list `["3.7", "3.8", "3.9"]` (ignoring the
configured version), and when every branch pipeline succeeds it returns a
report joining exactly one sub-report per branch, in completion order. -/
theorem c9_amended :
    ∀ (bl : BoundaryLayer) (engine : Engine) (f : Nat → String)
      (bs : List Nat) (ss : Nat → List Nat),
      bs ∈ schedules3 →
      (∀ i ∈ bs, bl.ciBranchCoro engine ss i = Except.ok (f i)) →
      bl.ci engine bs ss = Except.ok (String.intercalate "\n" (bs.map f)) ∧
        bl.ciBranches.map BoundaryLayer.version = ciVersions ∧
        (bs.map f).length = 3 := by
  intro bl engine f bs ss hmem h
  refine ⟨?_, rfl, ?_⟩
  · fin_cases hmem <;>
      simp [BoundaryLayer.ci, runGroupAppend, h 0 (by simp), h 1 (by simp), h 2 (by simp)]
  · fin_cases hmem <;> rfl

/-- C9, witness: under `engOk` every branch succeeds with report
`out`, `out`, `out`, and `ci()` joins the three sub-reports. -/
theorem c9_amended_witness :
    bl0.ci engOk [0, 1, 2] (fun _ => [0, 1, 2]) =
      Except.ok (String.intercalate "\n"
        ["out\nout\nout", "out\nout\nout", "out\nout\nout"]) :=
  (c9_amended bl0 engOk (fun _ => "out\nout\nout") [0, 1, 2] (fun _ => [0, 1, 2])
    (by simp [schedules3]) (by intro i hi; fin_cases hi <;> rfl)).1

/-- C10, confirmed.  `ci()` constructs exactly three fresh per-branch
configurations, one per hardcoded version `3.7`, `3.8`, `3.9`, each
copying the source directory and environment label unchanged and
substituting only the version; the configuration's own version field is
ignored (substituting any version into the config leaves the branch list
unchanged). -/
theorem c10_ci_hardcoded_fanout :
    ∀ bl : BoundaryLayer,
      bl.ciBranches =
        [⟨bl.dir, bl.env, "3.7"⟩, ⟨bl.dir, bl.env, "3.8"⟩, ⟨bl.dir, bl.env, "3.9"⟩] ∧
        ∀ v : String, (BoundaryLayer.mk bl.dir bl.env v).ciBranches = bl.ciBranches :=
  fun _ => ⟨rfl, fun _ => rfl⟩

end BoundaryLayerCI
